import Mathlib

/-!
Verification of the research-assistant workflow graph
(`src/research_assistant.py`) against its specification.

The file has two layers:

* Definitions translated directly from the source: the state schema
  `ResearchState`, the tools (`web_search`, `document_lookup`,
  `calculate_stats`, the result string of `request_human_approval`),
  the node bodies (`run_agent`, `request_approval`,
  `summarize_research`), the router `route_after_agent`, and the
  graph's edge tables.

* Definitions modelled from the spec, marked as such in their doc
  comments: the superstep engine with checkpoints and the
  interrupt/resume protocol live in the LangGraph library, not in the
  repository's own sources, so they are embedded from the
  specification's description (sections 3, 4.1, 4.4, 6).

The language model is an external collaborator.  It is represented by
the stream of messages it would return: each node that performs a
model call consumes exactly one element of the stream, so model-call
counts are visible as stream consumption.  Python's builtin `eval`
used by `calculate_stats` is likewise external and is abstracted as a
function returning `Except` (error = raised exception).
-/

/-- Single quote character, used when embedding Python f-strings that
quote an interpolated value. -/
def pyQuote : String := String.singleton (Char.ofNat 39)

/-- Role tag of a conversation message (`SystemMessage`,
`HumanMessage`, `AIMessage`, `ToolMessage` in the source). -/
inductive Role where
  | system
  | human
  | assistant
  | toolResult
deriving DecidableEq, Repr

/-- One pending tool invocation attached to an assistant message:
the tool name and its (single string) argument. -/
structure ToolCall where
  name : String
  args : String
deriving DecidableEq, Repr

/-- A conversation message.  `tool_calls = none` models a message
object without a `tool_calls` attribute (e.g. a human message);
`some l` models an assistant message whose `tool_calls` list is `l`. -/
structure Message where
  role : Role
  content : String
  tool_calls : Option (List ToolCall) := none
deriving DecidableEq, Repr

/-- The session state schema `ResearchState` from the source
(lines 22-31).  `none` in an `Option` field models the channel having
no value yet. -/
structure ResearchState where
  messages : List Message
  research_query : Option String := none
  research_progress : Option (List String) := none
  sources_found : Option (List String) := none
  requires_approval : Option Bool := none
  approved_by_human : Option Bool := none
  summary : Option String := none
deriving DecidableEq, Repr

/-- A partial update returned by a node: `none` means the node did not
touch the field; `some v` means the node wrote `v`.  `messages` is a
list to be appended (the `messages` channel is annotated with an
appending reducer in the source). -/
structure PartialUpdate where
  messages : List Message := []
  research_query : Option String := none
  research_progress : Option (List String) := none
  sources_found : Option (List String) := none
  requires_approval : Option Bool := none
  approved_by_human : Option Bool := none
  summary : Option String := none
deriving DecidableEq, Repr

/-- Modelled from the spec (section 4.1): the `appendSequence` built-in
reducer returns the old value concatenated with the new, preserving
order, duplicates allowed. -/
def appendSequence {α : Type} (old new : List α) : List α := old ++ new

/-- Modelled from the spec (section 4.1): the `overwrite` reducer for a
field a partial update may leave untouched — the new value wins when
present, otherwise the old value is kept.  This is the merge rule for
every `ResearchState` field without a reducer annotation. -/
def overwriteField {α : Type} (old new : Option α) : Option α :=
  match new with
  | none => old
  | some v => some v

/-- Modelled from the spec (sections 4.1, 4.4 step 6): merging a node's
partial update into the session state.  `messages` is merged with the
appending reducer (the source annotates it with `add_messages`, which
appends fresh messages); every other field of `ResearchState` carries
no reducer annotation in the source, so the new value overwrites the
old when the update touches the field. -/
def applyUpdate (s : ResearchState) (u : PartialUpdate) : ResearchState :=
  { messages := appendSequence s.messages u.messages
  , research_query := overwriteField s.research_query u.research_query
  , research_progress := overwriteField s.research_progress u.research_progress
  , sources_found := overwriteField s.sources_found u.sources_found
  , requires_approval := overwriteField s.requires_approval u.requires_approval
  , approved_by_human := overwriteField s.approved_by_human u.approved_by_human
  , summary := overwriteField s.summary u.summary }

/-- The mock search-result table of the `web_search` tool
(source lines 38-43), in insertion order. -/
def search_results : List (String × String) :=
  [ ("climate change", "Recent studies show global temperatures rising 1.1¬∞C since pre-industrial times...")
  , ("ai research", "Latest breakthroughs in transformer models and multimodal AI systems...")
  , ("quantum computing", "IBM and Google achieve quantum supremacy with 1000+ qubit systems...")
  , ("space exploration", "NASA" ++ pyQuote ++ "s Artemis program targets moon landing by 2026...") ]

/-- Python's `sub in hay` substring test on character lists: `sub` is a
contiguous run of `hay`. -/
def charsContain : List Char → List Char → Bool
  | [], sub => sub.isEmpty
  | c :: t, sub => List.isPrefixOf sub (c :: t) || charsContain t sub

/-- The `web_search` tool (source lines 34-49): return the canned
result for the first keyword contained in the lowercased query,
otherwise a no-result message. -/
def web_search (query : String) : String :=
  match search_results.find? (fun kv => charsContain query.toLower.toList kv.1.toList) with
  | some kv =>
      "Search results for " ++ pyQuote ++ query ++ pyQuote ++ ":\n" ++ kv.2
  | none =>
      "No specific results found for " ++ pyQuote ++ query ++ pyQuote ++ ". General information available."

/-- The internal-document table of `document_lookup`
(source lines 54-58). -/
def docs : List (String × String) :=
  [ ("DOC-001", "Internal research on renewable energy shows 40% efficiency gains...")
  , ("DOC-002", "Market analysis indicates strong growth in AI sector...")
  , ("DOC-003", "Technical specifications for quantum encryption protocols...") ]

/-- The `document_lookup` tool (source lines 51-59): dictionary `get`
with a textual not-found default. -/
def document_lookup (document_id : String) : String :=
  match List.lookup document_id docs with
  | some v => v
  | none => "Document " ++ document_id ++ " not found in database"

/-- The `calculate_stats` tool (source lines 61-69).  Python's builtin
`eval` is external; it is abstracted as `evalFn`, where
`Except.ok r` carries `str(result)` and `Except.error e` carries
`str(exception)`.  Any evaluation failure is converted into a textual
error result; no exception escapes the tool. -/
def calculate_stats (evalFn : String → Except String String) (expression : String) : String :=
  match evalFn expression with
  | Except.ok r => "Calculation result: " ++ expression ++ " = " ++ r
  | Except.error e => "Error in calculation: " ++ e

/-- The result string of the `request_human_approval` tool once a
resume decision is available (source line 79). -/
def request_human_approval_result (topic : String) (approved : Bool) : String :=
  "Human approval " ++ (if approved then "granted" else "denied") ++ " for topic: " ++ topic

/-- Python truthiness of the `tool_calls` attribute, as tested at
source line 128: `hasattr(m, 'tool_calls') and m.tool_calls`. -/
def hasToolCalls (m : Message) : Bool :=
  match m.tool_calls with
  | none => false
  | some tcs => !tcs.isEmpty

/-- `x or default` on an optional Python string: `None` and the empty
string are falsy (source line 119). -/
def pyStrOr (v : Option String) (default : String) : String :=
  match v with
  | none => default
  | some s => if s = "" then default else s

/-- Python `repr` of a list of strings, as produced by `format`/f-string
interpolation of a `List[str]` value. -/
def pyReprList (xs : List String) : String :=
  "[" ++ String.intercalate (", ") (xs.map (fun s => pyQuote ++ s ++ pyQuote)) ++ "]"

/-- The system prompt of the agent node (source lines 90-101), with the
progress and sources lists interpolated. -/
def system_prompt (progress sources : List String) : String :=
  "You are an advanced research assistant. You can:\n" ++
  "    1. Search the web for information\n" ++
  "    2. Look up internal documents  \n" ++
  "    3. Perform calculations and analysis\n" ++
  "    4. Request human approval for sensitive topics\n" ++
  "    \n" ++
  "    Current research progress: " ++ pyReprList progress ++ "\n" ++
  "    Sources found: " ++ pyReprList sources ++ "\n" ++
  "    \n" ++
  "    Be thorough and helpful. For sensitive topics like politics, controversies, \n" ++
  "    or personal information, use the request_human_approval tool first.\n" ++
  "    "

/-- The message list the agent node sends to the model (source
lines 104-111): the state's messages, with a system message holding the
current progress and sources inserted in front when none is present. -/
def agentInputMessages (state : ResearchState) : List Message :=
  if state.messages.any (fun m => m.role = Role.system) then state.messages
  else
    { role := Role.system
    , content := system_prompt (state.research_progress.getD []) (state.sources_found.getD [])
    , tool_calls := none } :: state.messages

/-- The partial update returned by the agent node `run_agent`
(source lines 117-121), given the model's response message: append the
response, keep a non-empty research query (defaulting to
"General research"), and append one progress entry. -/
def run_agent (response : Message) (state : ResearchState) : PartialUpdate :=
  { messages := [response]
  , research_query := some (pyStrOr state.research_query ("General research"))
  , research_progress := some (state.research_progress.getD [] ++ ["Agent response generated"]) }

/-- The router `route_after_agent` (source lines 123-148).  Reading the
last message of an empty history raises `IndexError` in Python, which
is modelled as `none`.  With no pending tool calls the router compares
the progress length against the threshold 3; with pending tool calls
it returns the approval label when any call names
`request_human_approval`, else the tools label.  (The content check at
source lines 144-148 is unreachable: the branch at line 128 already
returned whenever `tool_calls` is missing or empty.) -/
def route_after_agent (state : ResearchState) : Option String :=
  match state.messages.getLast? with
  | none => none
  | some last =>
    if hasToolCalls last = false then
      if 3 < (state.research_progress.getD []).length then some ("summarize")
      else some ("tools")
    else
      if (last.tool_calls.getD []).any (fun tc => tc.name == "request_human_approval") then
        some ("approval")
      else some ("tools")

/-- The label-to-successor mapping of the conditional edges leaving the
agent node (source lines 197-205). -/
def conditional_edge_map : List (String × String) :=
  [("tools", "tools"), ("approval", "approval"), ("summarize", "summarize")]

/-- The partial update of the approval node `request_approval`
(source lines 150-156): mark approval as required and append one
progress entry. -/
def request_approval (state : ResearchState) : PartialUpdate :=
  { requires_approval := some true
  , research_progress := some (state.research_progress.getD [] ++ ["Approval requested"]) }

/-- The summary prompt built by `summarize_research`
(source lines 163-174). -/
def summary_prompt (state : ResearchState) : String :=
  "\n    Based on the research conversation above, provide a comprehensive summary including:\n" ++
  "    1. Main research query: " ++ (state.research_query.getD ("Not specified")) ++ "\n" ++
  "    2. Key findings from sources\n" ++
  "    3. Important data points or calculations\n" ++
  "    4. Conclusions and recommendations\n" ++
  "    \n" ++
  "    Research progress: " ++ pyReprList (state.research_progress.getD []) ++ "\n" ++
  "    Sources consulted: " ++ pyReprList (state.sources_found.getD []) ++ "\n" ++
  "    \n" ++
  "    Provide a well-structured summary.\n" ++
  "    "

/-- The partial update returned by the summarize node
`summarize_research` (source lines 179-183), given the model's
response to the summary prompt: append the response, store its content
as the summary, and append one progress entry. -/
def summarize_research (response : Message) (state : ResearchState) : PartialUpdate :=
  { messages := [response]
  , summary := some response.content
  , research_progress := some (state.research_progress.getD [] ++ ["Research summarized"]) }

/-- The resume decision supplied by the external caller, e.g.
`Command(resume={"approved": True})` in the source's main loop. -/
structure Decision where
  approved : Bool
deriving DecidableEq, Repr

/-- Modelled from the spec (section 3): the interrupt payload produced
by a suspended node — the structured data passed to `interrupt(...)`
at source lines 74-78, plus the name of the suspending node, which the
spec requires so the engine can resume correctly. -/
structure InterruptPayload where
  itype : String
  topic : String
  message : String
  node : String
deriving DecidableEq, Repr

/-- Modelled from the spec (section 4.2): a node invocation returns
either a partial update or a suspension signal carrying an interrupt
payload. -/
inductive NodeResult where
  | update (u : PartialUpdate)
  | suspend (p : InterruptPayload)
deriving DecidableEq, Repr

/-- Modelled from the spec (section 3): the durable checkpoint of a
thread — step sequence number, state snapshot, and the pending
interrupt marker. -/
structure Checkpoint where
  step : Nat
  state : ResearchState
  pendingInterrupt : Option InterruptPayload
deriving DecidableEq, Repr

/-- Outcome of one superstep, as seen by the engine loop. -/
inductive StepOutcome where
  | next (node : String)
  | suspended (p : InterruptPayload)
  | completed
  | failed (e : String)
deriving DecidableEq, Repr

/-- Modelled from the spec (section 6): the caller-facing run result. -/
inductive RunResult where
  | Completed (finalState : ResearchState)
  | Suspended (p : InterruptPayload)
  | Failed (e : String)
deriving DecidableEq, Repr

/-- The topic argument of the pending `request_human_approval` call in
the last message, which the tool interpolates into its interrupt
payload (source lines 74-78). -/
def approvalTopic (state : ResearchState) : String :=
  match state.messages.getLast? with
  | none => ""
  | some m =>
    match (m.tool_calls.getD []).find? (fun tc => tc.name == "request_human_approval") with
    | none => ""
    | some tc => tc.args

/-- The interrupt payload raised by `request_human_approval`
(source lines 74-78), tagged with the suspending node's name as the
spec requires. -/
def approval_interrupt_payload (topic : String) : InterruptPayload :=
  { itype := "approval_request"
  , topic := topic
  , message := "The topic " ++ pyQuote ++ topic ++ pyQuote ++
      " requires human approval before proceeding with research."
  , node := "approval" }

/-- Modelled from the spec (section 4.4, Scenario C): the approval
step.  With no resume decision present, the `request_human_approval`
tool's `interrupt` raises a suspension signal carrying the approval
payload (source lines 74-78); re-entered with a decision, the step
completes normally and returns the `request_approval` update
(source lines 150-156). -/
def approval_node (state : ResearchState) (decision : Option Decision) : NodeResult :=
  match decision with
  | none => NodeResult.suspend (approval_interrupt_payload (approvalTopic state))
  | some _ => NodeResult.update (request_approval state)

/-- Modelled from the spec (section 6, tool invocation interface):
string-keyed dispatch from a pending invocation to the tool functions
defined in the source.  `request_human_approval` is not dispatched
here: its suspension path is modelled at the approval node. -/
def invoke_tool (evalFn : String → Except String String) (name arg : String) : String :=
  match name with
  | "web_search" => web_search arg
  | "document_lookup" => document_lookup arg
  | "calculate_stats" => calculate_stats evalFn arg
  | other => "Error: unknown tool " ++ other

/-- Modelled from the spec (section 4.3 and LangGraph's `ToolNode`,
source line 190): execute every pending tool invocation of the last
message and append one tool-result message per invocation. -/
def tool_node (evalFn : String → Except String String) (state : ResearchState) : PartialUpdate :=
  match state.messages.getLast? with
  | none => {}
  | some m =>
    { messages := (m.tool_calls.getD []).map (fun tc =>
        { role := Role.toolResult
        , content := invoke_tool evalFn tc.name tc.args
        , tool_calls := none }) }

/-- The agent node as a superstep unit: it sends `agentInputMessages`
to the model and consumes exactly one response from the model's
response stream; an empty stream means the model call cannot be
served. -/
def run_agent_node (state : ResearchState) (oracle : List Message) :
    Option (NodeResult × List Message) :=
  match oracle with
  | [] => none
  | r :: rest => some (NodeResult.update (run_agent r state), rest)

/-- The tools node as a superstep unit: no model call, so the response
stream is returned untouched. -/
def tool_node_step (evalFn : String → Except String String) (state : ResearchState)
    (oracle : List Message) : Option (NodeResult × List Message) :=
  some (NodeResult.update (tool_node evalFn state), oracle)

/-- The approval node as a superstep unit: no model call, so the
response stream is returned untouched. -/
def approval_node_step (state : ResearchState) (decision : Option Decision)
    (oracle : List Message) : Option (NodeResult × List Message) :=
  some (approval_node state decision, oracle)

/-- The summarize node as a superstep unit: it sends the conversation
plus `summary_prompt` to the model and consumes exactly one response
from the model's response stream. -/
def summarize_research_node (state : ResearchState) (oracle : List Message) :
    Option (NodeResult × List Message) :=
  match oracle with
  | [] => none
  | r :: rest => some (NodeResult.update (summarize_research r state), rest)

/-- Modelled from the spec (section 2, node registry): dispatch from a
node name to its executable unit.  An unknown name has no executable
unit. -/
def invokeNode (evalFn : String → Except String String) (name : String)
    (state : ResearchState) (decision : Option Decision) (oracle : List Message) :
    Option (NodeResult × List Message) :=
  match name with
  | "agent" => run_agent_node state oracle
  | "tools" => tool_node_step evalFn state oracle
  | "approval" => approval_node_step state decision oracle
  | "summarize" => summarize_research_node state oracle
  | _ => none

/-- The edge table of the graph (source lines 195-210): conditional
edges from the agent node resolved through `route_after_agent` and
`conditional_edge_map`, unconditional edges from tools and approval
back to the agent, and from summarize to `END`. -/
def routeFrom (name : String) (s : ResearchState) : Option String :=
  match name with
  | "agent" =>
    match route_after_agent s with
    | none => none
    | some label => List.lookup label conditional_edge_map
  | "tools" => some ("agent")
  | "approval" => some ("agent")
  | "summarize" => some ("END")
  | _ => none

/-- Modelled from the spec (section 4.4, steps 5-6): one superstep
given the invoked node's result.  A suspension persists a checkpoint
with `pendingInterrupt` set and the state unchanged — the update is
never merged.  A partial update is merged through the reducers, a
checkpoint with `pendingInterrupt` cleared is persisted, and the edge
router picks the successor; `END` completes the run and an
unresolvable route fails it. -/
def superstep (ck : Checkpoint) (name : String) (result : NodeResult) :
    Checkpoint × StepOutcome :=
  match result with
  | NodeResult.suspend p =>
      ({ step := ck.step + 1, state := ck.state, pendingInterrupt := some p },
       StepOutcome.suspended p)
  | NodeResult.update u =>
      let s := applyUpdate ck.state u
      let ck2 : Checkpoint := { step := ck.step + 1, state := s, pendingInterrupt := none }
      match routeFrom name s with
      | none => (ck2, StepOutcome.failed ("UnknownRoutingLabel"))
      | some "END" => (ck2, StepOutcome.completed)
      | some nxt => (ck2, StepOutcome.next nxt)

/-- Modelled from the spec (section 4.4): the superstep loop, driven by
fuel to bound recursion.  The resume decision, when present, is
consumed by the first node invoked and not propagated further. -/
def runLoop (evalFn : String → Except String String) : Nat → Checkpoint → String →
    Option Decision → List Message → Checkpoint × RunResult
  | 0, ck, _, _, _ => (ck, RunResult.Failed ("OutOfFuel"))
  | Nat.succ fuel, ck, name, decision, oracle =>
    match invokeNode evalFn name ck.state decision oracle with
    | none => (ck, RunResult.Failed ("NodeInvocationError"))
    | some (result, oracle2) =>
      match superstep ck name result with
      | (ck2, StepOutcome.suspended p) => (ck2, RunResult.Suspended p)
      | (ck2, StepOutcome.completed) => (ck2, RunResult.Completed ck2.state)
      | (ck2, StepOutcome.failed e) => (ck2, RunResult.Failed e)
      | (ck2, StepOutcome.next n) => runLoop evalFn fuel ck2 n none oracle2

/-- Modelled from the spec (section 6): `run(threadId, initialFields)`
for a fresh thread — start from the caller-supplied initial state at
the entry node `agent` (source line 195). -/
def engineRun (evalFn : String → Except String String) (fuel : Nat)
    (initialFields : ResearchState) (oracle : List Message) : Checkpoint × RunResult :=
  runLoop evalFn fuel { step := 0, state := initialFields, pendingInterrupt := none }
    ("agent") none oracle

/-- Modelled from the spec (sections 4.4, 6): `resume(threadId,
decision)` — with no pending interrupt this is a `ResumeMismatch`;
otherwise re-enter the node recorded in the pending interrupt, passing
the decision alongside the checkpointed state. -/
def engineResume (evalFn : String → Except String String) (fuel : Nat)
    (ck : Checkpoint) (decision : Decision) (oracle : List Message) :
    Checkpoint × RunResult :=
  match ck.pendingInterrupt with
  | none => (ck, RunResult.Failed ("ResumeMismatch"))
  | some p => runLoop evalFn fuel ck p.node (some decision) oracle

/-! ### Concrete fixtures used to instantiate the theorems -/

/-- A human message opening a research session. -/
def msgHuman : Message :=
  { role := Role.human, content := "Research quantum computing", tool_calls := none }

/-- An assistant message with an empty pending-invocation list. -/
def msgNoCalls : Message :=
  { role := Role.assistant, content := "Here is what I found.", tool_calls := some [] }

/-- An assistant message whose pending invocations include the
human-approval tool. -/
def msgApprovalCall : Message :=
  { role := Role.assistant, content := ""
  , tool_calls := some [{ name := "request_human_approval", args := "political controversies" }] }

/-- An assistant message with one pending `web_search` invocation. -/
def msgSearchCall : Message :=
  { role := Role.assistant, content := ""
  , tool_calls := some [{ name := "web_search", args := "quantum computing" }] }

/-- A model response used as the final summary. -/
def msgSummary : Message :=
  { role := Role.assistant, content := "Final summary of findings.", tool_calls := none }

/-- The initial state the source's main loop submits (lines 233-241),
for the query of `msgHuman`. -/
def st0 : ResearchState :=
  { messages := [msgHuman]
  , research_query := some ("Research quantum computing")
  , research_progress := some (["Research started"])
  , sources_found := some ([])
  , requires_approval := some false
  , approved_by_human := some false
  , summary := none }

/-- A state whose last message carries the approval tool call. -/
def stApproval : ResearchState :=
  { st0 with messages := [msgHuman, msgApprovalCall] }

/-- A state whose last message carries only a search tool call. -/
def stSearch : ResearchState :=
  { st0 with messages := [msgHuman, msgSearchCall] }

/-- A state whose last message carries no pending tool invocations and
whose progress has not passed the threshold. -/
def stNoCalls : ResearchState :=
  { st0 with messages := [msgHuman, msgNoCalls] }

/-- A state with an empty message history. -/
def stEmpty : ResearchState := { messages := [] }

/-- A state whose research query is the empty string. -/
def stEmptyQuery : ResearchState :=
  { st0 with research_query := some ("") }

/-- A checkpoint holding the initial state. -/
def ck0 : Checkpoint := { step := 0, state := st0, pendingInterrupt := none }

/-- An eval oracle that always raises, as `eval` does on a malformed
expression. -/
def evalFnErr : String → Except String String :=
  fun _ => Except.error ("division by zero")

/-! ### Claim theorems -/

/-- Claim C2: for every post-merge state whose last message carries at
least one pending tool invocation, the agent router returns the
approval label if any pending invocation names
`request_human_approval` — regardless of the research progress, which
is universally quantified here — and the tools label if none does. -/
theorem route_after_agent_pending_calls (state : ResearchState) (last : Message)
    (hlast : state.messages.getLast? = some last)
    (hcalls : hasToolCalls last = true) :
    ((last.tool_calls.getD []).any (fun tc => tc.name == "request_human_approval") = true →
      route_after_agent state = some ("approval"))
    ∧ ((last.tool_calls.getD []).any (fun tc => tc.name == "request_human_approval") = false →
      route_after_agent state = some ("tools")) := by
  unfold route_after_agent
  rw [hlast]
  simp only [hcalls]
  constructor
  · intro hany
    simp [hany]
  · intro hnone
    simp [hnone]

/-- Claim C2, witness: with the approval call pending the router
returns the approval label even though progress is short; with only a
search call pending it returns the tools label. -/
theorem route_after_agent_pending_calls_witness :
    route_after_agent stApproval = some ("approval")
    ∧ route_after_agent stSearch = some ("tools") :=
  ⟨(route_after_agent_pending_calls stApproval msgApprovalCall (by decide) (by decide)).1
      (by decide),
   (route_after_agent_pending_calls stSearch msgSearchCall (by decide) (by decide)).2
      (by decide)⟩

/-- Claim C3: for every post-merge state whose last message carries no
pending tool invocations, the agent router returns the summarize label
exactly when the research progress length exceeds the threshold 3, and
with progress length at most 3 it returns the tools label, looping
back to tools. -/
theorem route_after_agent_no_pending_calls (state : ResearchState) (last : Message)
    (hlast : state.messages.getLast? = some last)
    (hcalls : hasToolCalls last = false) :
    (route_after_agent state = some ("summarize") ↔
      3 < (state.research_progress.getD []).length)
    ∧ ((state.research_progress.getD []).length ≤ 3 →
      route_after_agent state = some ("tools")) := by
  unfold route_after_agent
  rw [hlast]
  simp only [hcalls]
  by_cases hlen : 3 < (state.research_progress.getD []).length
  · simp [hlen]
  · simp [hlen]

/-- Claim C3, witness: with no pending tool invocations and
`research_progress = ["Research started"]` (length 1, at most the
threshold 3) the router returns the tools label, not summarize. -/
theorem route_after_agent_no_pending_calls_witness :
    route_after_agent stNoCalls = some ("tools") :=
  (route_after_agent_no_pending_calls stNoCalls msgNoCalls (by decide) (by decide)).2
    (by decide)

/-- Claim C9: on every state with a non-empty message history the agent
router is total and returns one of exactly the labels "tools",
"approval", "summarize", each of which is mapped to a successor in the
graph's conditional-edge mapping, so the unknown-routing-label branch
is unreachable for this graph; on an empty history the router cannot
read a last message and has no result, which is why the non-emptiness
precondition is required. -/
theorem route_after_agent_total_and_mapped (state : ResearchState) :
    (state.messages ≠ [] →
      ∃ label, route_after_agent state = some label
        ∧ (label = "tools" ∨ label = "approval" ∨ label = "summarize")
        ∧ (List.lookup label conditional_edge_map).isSome = true)
    ∧ (state.messages = [] → route_after_agent state = none) := by
  constructor
  · intro hne
    cases hlast : state.messages.getLast? with
    | none =>
      exact absurd (List.getLast?_eq_none_iff.mp hlast) hne
    | some last =>
      unfold route_after_agent
      rw [hlast]
      by_cases hcalls : hasToolCalls last = false
      · simp only [hcalls]
        by_cases hlen : 3 < (state.research_progress.getD []).length
        · exact ⟨"summarize", by simp [hlen], by simp, by decide⟩
        · exact ⟨"tools", by simp [hlen], by simp, by decide⟩
      · simp only [eq_self_iff_true, hcalls]
        by_cases hany :
            (last.tool_calls.getD []).any (fun tc => tc.name == "request_human_approval") = true
        · exact ⟨"approval", by simp [hcalls, hany], by simp, by decide⟩
        · exact ⟨"tools", by simp [hcalls, hany], by simp, by decide⟩
  · intro hempty
    unfold route_after_agent
    rw [hempty]
    rfl

/-- Claim C9, witness: at the concrete state with last message
`msgNoCalls` the router yields a label, and at the empty-history state
it has no result. -/
theorem route_after_agent_total_and_mapped_witness :
    (route_after_agent stNoCalls).isSome = true
    ∧ route_after_agent stEmpty = none := by
  have h := (route_after_agent_total_and_mapped stNoCalls).1 (by decide)
  obtain ⟨label, h1, -, -⟩ := h
  exact ⟨by rw [h1]; rfl, (route_after_agent_total_and_mapped stEmpty).2 (by rfl)⟩

/-- Non-emptiness of `pyStrOr` whenever the default is non-empty. -/
theorem pyStrOr_ne_empty (v : Option String) (d : String) (hd : d ≠ "") :
    pyStrOr v d ≠ "" := by
  unfold pyStrOr
  cases v with
  | none => exact hd
  | some s =>
    by_cases hs : s = ""
    · simp [hs, hd]
    · simp [hs]

/-- Claim C10: the agent node preserves `research_query` whenever it is
a non-empty string and replaces it with "General research" when it is
absent or empty; hence after merging the agent's update the state's
`research_query` is a non-empty string. -/
theorem run_agent_preserves_research_query (response : Message) (state : ResearchState) :
    ((run_agent response state).research_query =
      some (pyStrOr state.research_query ("General research")))
    ∧ (∀ q, state.research_query = some q → q ≠ "" →
        (run_agent response state).research_query = some q)
    ∧ ((state.research_query = none ∨ state.research_query = some "") →
        (run_agent response state).research_query = some ("General research"))
    ∧ (∃ q, (applyUpdate state (run_agent response state)).research_query = some q
        ∧ q ≠ "") := by
  refine ⟨rfl, ?_, ?_, ?_⟩
  · intro q hq hne
    simp [run_agent, pyStrOr, hq, hne]
  · intro hcase
    rcases hcase with hnone | hempty
    · simp [run_agent, pyStrOr, hnone]
    · simp [run_agent, pyStrOr, hempty]
  · refine ⟨pyStrOr state.research_query ("General research"), rfl, ?_⟩
    exact pyStrOr_ne_empty state.research_query ("General research") (by decide)

/-- Claim C10, witness: an empty query is replaced by
"General research" and the non-empty query of `st0` is preserved. -/
theorem run_agent_preserves_research_query_witness :
    (run_agent msgNoCalls stEmptyQuery).research_query = some ("General research")
    ∧ (run_agent msgNoCalls st0).research_query = some ("Research quantum computing") :=
  ⟨(run_agent_preserves_research_query msgNoCalls stEmptyQuery).2.2.1 (Or.inr rfl),
   (run_agent_preserves_research_query msgNoCalls st0).2.1
      ("Research quantum computing") rfl (by decide)⟩

/-- Claim C5: a superstep whose node invocation raised a suspension
signal halts before merging any update — the persisted checkpoint
carries the very state the node was invoked with, together with the
pending interrupt, and no partial update is merged. -/
theorem suspend_halts_before_merge (ck : Checkpoint) (name : String) (p : InterruptPayload) :
    superstep ck name (NodeResult.suspend p) =
      ({ step := ck.step + 1, state := ck.state, pendingInterrupt := some p },
       StepOutcome.suspended p) := rfl

/-- Claim C6: the append reducer is order-preserving (the old sequence
is a prefix of the merged one), drops no elements of either side, and
is associative in the stated sense; the merged `messages` channel is
exactly this reducer, and the research-progress values produced by all
three updating nodes, as well as the untouched `sources_found`
channel, are append-extensions of the prior value. -/
theorem appendSequence_reducer_props :
    (∀ (A B C : List String),
      appendSequence (appendSequence A B) C = appendSequence A (B ++ C))
    ∧ (∀ (A B : List String), A <+: appendSequence A B)
    ∧ (∀ (A B : List String), ∀ x ∈ A, x ∈ appendSequence A B)
    ∧ (∀ (A B : List String), ∀ x ∈ B, x ∈ appendSequence A B)
    ∧ (∀ (s : ResearchState) (u : PartialUpdate),
        (applyUpdate s u).messages = appendSequence s.messages u.messages)
    ∧ (∀ (response : Message) (s : ResearchState),
        (applyUpdate s (run_agent response s)).research_progress =
          some (appendSequence (s.research_progress.getD []) ["Agent response generated"]))
    ∧ (∀ (s : ResearchState),
        (applyUpdate s (request_approval s)).research_progress =
          some (appendSequence (s.research_progress.getD []) ["Approval requested"]))
    ∧ (∀ (response : Message) (s : ResearchState),
        (applyUpdate s (summarize_research response s)).research_progress =
          some (appendSequence (s.research_progress.getD []) ["Research summarized"]))
    ∧ (∀ (response : Message) (s : ResearchState),
        (applyUpdate s (run_agent response s)).sources_found = s.sources_found) := by
  refine ⟨?_, ?_, ?_, ?_, ?_, ?_, ?_, ?_, ?_⟩
  · intro A B C
    simp [appendSequence]
  · intro A B
    exact ⟨B, rfl⟩
  · intro A B x hx
    unfold appendSequence
    exact List.mem_append_left B hx
  · intro A B x hx
    unfold appendSequence
    exact List.mem_append_right A hx
  · intro s u
    rfl
  · intro response s
    rfl
  · intro s
    rfl
  · intro response s
    rfl
  · intro response s
    rfl

/-- Claim C6, witness: the associativity law and both no-element-drop
properties at concrete sequences. -/
theorem appendSequence_reducer_props_witness :
    appendSequence (appendSequence ["a"] ["b"]) ["c"] = appendSequence ["a"] (["b"] ++ ["c"])
    ∧ "a" ∈ appendSequence ["a"] ["b"]
    ∧ "b" ∈ appendSequence ["a"] ["b"] :=
  ⟨appendSequence_reducer_props.1 ["a"] ["b"] ["c"],
   appendSequence_reducer_props.2.2.1 ["a"] ["b"] "a" (by decide),
   appendSequence_reducer_props.2.2.2.1 ["a"] ["b"] "b" (by decide)⟩

/-- Claim C8: no tool invocation propagates a raw failure into the
engine.  For every expression the calculation tool returns a result
string: a textual error result when evaluation fails, the calculation
text when it succeeds; and an unknown document id yields the textual
not-found result. -/
theorem tools_convert_failures (evalFn : String → Except String String) :
    (∀ expression e, evalFn expression = Except.error e →
      calculate_stats evalFn expression = "Error in calculation: " ++ e)
    ∧ (∀ expression r, evalFn expression = Except.ok r →
      calculate_stats evalFn expression = "Calculation result: " ++ expression ++ " = " ++ r)
    ∧ (∀ d, List.lookup d docs = none →
      document_lookup d = "Document " ++ d ++ " not found in database") := by
  refine ⟨?_, ?_, ?_⟩
  · intro expression e he
    simp [calculate_stats, he]
  · intro expression r hr
    simp [calculate_stats, hr]
  · intro d hd
    simp [document_lookup, hd]

/-- Claim C8, witness: a failing evaluation is converted into the
textual error result, and an id outside the document table yields the
not-found text. -/
theorem tools_convert_failures_witness :
    calculate_stats evalFnErr ("1/0") = "Error in calculation: " ++ "division by zero"
    ∧ document_lookup ("DOC-999") = "Document " ++ "DOC-999" ++ " not found in database" :=
  ⟨(tools_convert_failures evalFnErr).1 ("1/0") ("division by zero") rfl,
   (tools_convert_failures evalFnErr).2.2 ("DOC-999") (by decide)⟩

/-- Claim C4, counterexample: it is not the case that no node other
than the agent makes a model call — the summarize node, invoked at the
concrete state `st0` with a one-response stream, consumes the
response, i.e. it performs a model call (source line 177,
`llm.invoke`). -/
theorem summarize_node_makes_model_call :
    ¬ (∀ (state : ResearchState) (oracle rest : List Message) (r : NodeResult),
        summarize_research_node state oracle = some (r, rest) → rest = oracle) := by
  intro hclaim
  have h := hclaim st0 [msgSummary] []
    (NodeResult.update (summarize_research msgSummary st0)) rfl
  simp at h

/-- Claim C4, amended: the model-call interface is invoked by the agent
and summarize nodes only, each making exactly one model call in a
superstep in which it runs (one stream element consumed, none
available means the call cannot be served); the tools and approval
nodes make none (stream returned untouched). -/
theorem model_calls_per_node :
    (∀ (state : ResearchState) (r : Message) (rest : List Message),
      run_agent_node state (r :: rest) =
        some (NodeResult.update (run_agent r state), rest))
    ∧ (∀ (state : ResearchState), run_agent_node state [] = none)
    ∧ (∀ (state : ResearchState) (r : Message) (rest : List Message),
      summarize_research_node state (r :: rest) =
        some (NodeResult.update (summarize_research r state), rest))
    ∧ (∀ (state : ResearchState), summarize_research_node state [] = none)
    ∧ (∀ (evalFn : String → Except String String) (state : ResearchState)
        (oracle : List Message),
      tool_node_step evalFn state oracle =
        some (NodeResult.update (tool_node evalFn state), oracle))
    ∧ (∀ (state : ResearchState) (decision : Option Decision) (oracle : List Message),
      approval_node_step state decision oracle = some (approval_node state decision, oracle)) :=
  ⟨fun _ _ _ => rfl, fun _ => rfl, fun _ _ _ => rfl, fun _ => rfl,
   fun _ _ _ => rfl, fun _ _ _ => rfl⟩

/-- Claim C1: entering the approval node with no resume decision
suspends the run — the engine persists a checkpoint whose state is
untouched and whose `pendingInterrupt` holds the approval payload, and
returns `Suspended` to the caller; a subsequent
`resume(threadId, approved)` re-enters that same approval node, which
this time returns a normal partial update (`request_approval`), and
the run continues at the routed successor node "agent" with the merged
state. -/
theorem approval_suspend_then_resume (evalFn : String → Except String String)
    (ck : Checkpoint) (fuel : Nat) (oracle oracle2 : List Message) (d : Decision) :
    runLoop evalFn (fuel + 1) ck ("approval") none oracle =
      ({ step := ck.step + 1, state := ck.state
        , pendingInterrupt := some (approval_interrupt_payload (approvalTopic ck.state)) },
       RunResult.Suspended (approval_interrupt_payload (approvalTopic ck.state)))
    ∧ engineResume evalFn (fuel + 1)
        ({ step := ck.step + 1, state := ck.state
          , pendingInterrupt := some (approval_interrupt_payload (approvalTopic ck.state)) })
        d oracle2 =
      runLoop evalFn fuel
        ({ step := ck.step + 2
          , state := applyUpdate ck.state (request_approval ck.state)
          , pendingInterrupt := none })
        ("agent") none oracle2
    ∧ routeFrom ("approval") (applyUpdate ck.state (request_approval ck.state)) =
        some ("agent") := by
  refine ⟨rfl, ?_, rfl⟩
  show runLoop evalFn (fuel + 1)
      ({ step := ck.step + 1, state := ck.state
        , pendingInterrupt := some (approval_interrupt_payload (approvalTopic ck.state)) })
      ("approval") (some d) oracle2 = _
  rfl

/-- Claim C7: once a run reaches the summarize node, the node's update
is merged and the router resolves its successor to `END`: the engine
returns `Completed` with the final state, the final state's summary is
the model's response content and hence non-empty whenever that content
is, and the result — the returned final checkpoint included — is the
same for every remaining fuel budget, i.e. no further superstep or
checkpoint mutation occurs after completion. -/
theorem summarize_completes_run (evalFn : String → Except String String)
    (ck : Checkpoint) (r : Message) (rest : List Message)
    (h : r.content ≠ "") :
    (∀ fuel2 : Nat,
      runLoop evalFn (fuel2 + 1) ck ("summarize") none (r :: rest) =
        ({ step := ck.step + 1
          , state := applyUpdate ck.state (summarize_research r ck.state)
          , pendingInterrupt := none },
         RunResult.Completed (applyUpdate ck.state (summarize_research r ck.state))))
    ∧ routeFrom ("summarize") (applyUpdate ck.state (summarize_research r ck.state)) =
        some ("END")
    ∧ (applyUpdate ck.state (summarize_research r ck.state)).summary = some r.content
    ∧ (∃ s, (applyUpdate ck.state (summarize_research r ck.state)).summary = some s
        ∧ s ≠ "") := by
  refine ⟨fun fuel2 => rfl, rfl, rfl, ⟨r.content, rfl, h⟩⟩

/-- Claim C7, witness: at the concrete checkpoint `ck0` with the
response `msgSummary`, the run completes with the non-empty summary
and routes to `END`. -/
theorem summarize_completes_run_witness :
    runLoop evalFnErr (0 + 1) ck0 ("summarize") none [msgSummary] =
      ({ step := ck0.step + 1
        , state := applyUpdate ck0.state (summarize_research msgSummary ck0.state)
        , pendingInterrupt := none },
       RunResult.Completed (applyUpdate ck0.state (summarize_research msgSummary ck0.state)))
    ∧ (applyUpdate ck0.state (summarize_research msgSummary ck0.state)).summary =
        some ("Final summary of findings.") :=
  ⟨(summarize_completes_run evalFnErr ck0 msgSummary [] (by decide)).1 0,
   (summarize_completes_run evalFnErr ck0 msgSummary [] (by decide)).2.2.1⟩
